import Mathlib

/-!
Shallow embedding of the BotcoinAdmin redemption/ledger core and the
notification stream merger, translated from the TransactionsScreen and
HomeScreen source files and the admin type declarations.

Database tables (redemption_requests, user_profiles, transactions) are
modelled as lists of rows inside a `DB` record; row ids and timestamps
are `Nat` (timestamps are a logical clock standing for the ISO strings
produced by `new Date().toISOString()`); point fields are `Int`, matching
JS numbers under subtraction.  Fallible external writes that the source
handles explicitly are modelled by a `ledgerWriteFails` flag injected into
the step function; all other store operations are modelled as succeeding.
-/

namespace BotcoinAdmin

/-- Transaction entry kind from admin.types: 'earned' | 'redeemed' | 'bonus'. -/
inductive TxType
  | earned
  | redeemed
  | bonus
deriving DecidableEq

/-- Transaction status from admin.types: 'pending' | 'completed' | 'failed'. -/
inductive TxStatus
  | pending
  | completed
  | failed
deriving DecidableEq

/-- Redemption request status: 'pending' | 'processing' | 'completed' | 'rejected'. -/
inductive ReqStatus
  | pending
  | processing
  | completed
  | rejected
deriving DecidableEq

/-- Row of the user_profiles table (the fields the core reads and writes). -/
structure UserProfile where
  user_id : Nat
  available_points : Int
  redeemed_points : Int
  total_points : Int
  created_at : Nat
  updated_at : Nat
deriving DecidableEq

/-- Row of the transactions table (the LedgerEntry of the spec). -/
structure LedgerEntry where
  id : Nat
  user_id : Nat
  type : TxType
  amount : Int
  description : String
  status : TxStatus
  reference_id : Option Nat
  created_at : Nat
  updated_at : Nat
deriving DecidableEq

/-- Row of the redemption_requests table. -/
structure RedemptionRequest where
  id : Nat
  user_id : Nat
  points_redeemed : Int
  cash_amount : Nat
  status : ReqStatus
  processed_at : Option Nat
  created_at : Nat
  updated_at : Nat
deriving DecidableEq

/-- The persistent store as seen by the TransactionsScreen code. -/
structure DB where
  requests : List RedemptionRequest
  user_profiles : List UserProfile
  transactions : List LedgerEntry
deriving DecidableEq

/-- Outcome of one handleRequestAction run: `success` is the path reaching the
Success alert; the error constructors stand for the distinct thrown errors the
catch block reports as 'Failed to … request'. -/
inductive Outcome
  | success
  | insufficientBalance (available required : Int)
  | profileNotFound
  | ledgerLookupError
  | ledgerUpdateFailed
deriving DecidableEq

/-- Predicate of the supabase filter .eq('reference_id', request.id).eq('type', 'redeemed'). -/
def matchesRef (refId : Nat) (t : LedgerEntry) : Bool :=
  decide (t.reference_id = some refId ∧ t.type = TxType.redeemed)

/-- Lines 195-210 of TransactionsScreen: update the request row with the new
status and updated_at, and set processed_at when the action is not 'pending'. -/
def updateRequestRow (db : DB) (reqId : Nat) (action : ReqStatus) (now : Nat) : DB :=
  { db with requests := db.requests.map fun r =>
      if r.id = reqId then
        { r with status := action, updated_at := now,
                 processed_at := if action = ReqStatus.pending then r.processed_at else some now }
      else r }

/-- The profile read .from('user_profiles').select(...).eq('user_id', uid).single(). -/
def getProfile (db : DB) (uid : Nat) : Option UserProfile :=
  db.user_profiles.find? fun p => decide (p.user_id = uid)

/-- Lines 244-252: write the recomputed point totals back to user_profiles. -/
def setProfilePoints (db : DB) (uid : Nat) (newAvail newRed : Int) (now : Nat) : DB :=
  { db with user_profiles := db.user_profiles.map fun p =>
      if p.user_id = uid then
        { p with available_points := newAvail, redeemed_points := newRed, updated_at := now }
      else p }

/-- Description string of the completed ledger row; the peso formatting of
cash_amount via toFixed(2) is abstracted to toString. -/
def completedDescription (cash : Nat) : String :=
  "GCash redemption - " ++ toString cash ++ " (Completed)"

/-- Description string written by the rejection branch. -/
def rejectedDescription (cash : Nat) : String :=
  "GCash redemption - " ++ toString cash ++ " (Rejected)"

/-- Lines 291-302: the row inserted when no transaction exists for the request;
freshId stands for the store-generated primary key. -/
def newRedeemedEntry (req : RedemptionRequest) (now freshId : Nat) : LedgerEntry :=
  { id := freshId, user_id := req.user_id, type := TxType.redeemed,
    amount := -req.points_redeemed,
    description := completedDescription req.cash_amount,
    status := TxStatus.completed, reference_id := some req.id,
    created_at := now, updated_at := now }

/-- Lines 261-308: look up an existing (reference_id, type='redeemed') row with
.single(); if found, update status/description/updated_at in place by id; if not
found, insert a new row.  `none` is the thrown lookup error when .single() sees
more than one row; a failed insert/update (writeFails) is logged and swallowed,
leaving the table unchanged. -/
def completionLedgerUpsert (txs : List LedgerEntry) (req : RedemptionRequest)
    (now freshId : Nat) (writeFails : Bool) : Option (List LedgerEntry) :=
  match txs.filter (matchesRef req.id) with
  | [] =>
      some (if writeFails then txs else txs ++ [newRedeemedEntry req now freshId])
  | [e] =>
      some (if writeFails then txs else txs.map fun t =>
        if t.id = e.id then
          { t with status := TxStatus.completed,
                   description := completedDescription req.cash_amount,
                   updated_at := now }
        else t)
  | _ => none

/-- Lines 316-325: the rejection branch updates every row matching
(reference_id, type='redeemed') to status='failed' with the rejected
description; zero matched rows is only console.warn-ed, not an error. -/
def markRedeemedFailed (txs : List LedgerEntry) (refId : Nat) (cash : Nat) (now : Nat) :
    List LedgerEntry :=
  txs.map fun t =>
    if matchesRef refId t then
      { t with status := TxStatus.failed, description := rejectedDescription cash,
               updated_at := now }
    else t

/-- Lines 190-364, handleRequestAction: first the request row is set to the
target status, then for 'completed' the profile is re-read, the balance checked
and decremented, and the ledger upserted; for 'rejected' any matching ledger
row is marked failed.  The function never consults the request's prior status
and never calls checkAdminStatus. -/
def handleRequestAction (db : DB) (req : RedemptionRequest) (action : ReqStatus)
    (now freshId : Nat) (ledgerWriteFails : Bool) : DB × Outcome :=
  let db1 := updateRequestRow db req.id action now
  if action = ReqStatus.completed then
    match getProfile db1 req.user_id with
    | none => (db1, Outcome.profileNotFound)
    | some p =>
      if p.available_points < req.points_redeemed then
        (db1, Outcome.insufficientBalance p.available_points req.points_redeemed)
      else
        let db2 := setProfilePoints db1 req.user_id
          (p.available_points - req.points_redeemed)
          (p.redeemed_points + req.points_redeemed) now
        match completionLedgerUpsert db2.transactions req now freshId ledgerWriteFails with
        | none => (db2, Outcome.ledgerLookupError)
        | some txs => ({ db2 with transactions := txs }, Outcome.success)
  else if action = ReqStatus.rejected then
    if ledgerWriteFails then (db1, Outcome.ledgerUpdateFailed)
    else ({ db1 with transactions := markRedeemedFailed db1.transactions req.id req.cash_amount now },
          Outcome.success)
  else
    (db1, Outcome.success)

/-- Lines 57-84, checkAdminStatus: no authenticated user gives false; otherwise
true exactly when the admins table has a row whose id is the user's id (the
.single() error path, including not-found, gives false). -/
def checkAdminStatus (currentUser : Option Nat) (admins : List Nat) : Bool :=
  match currentUser with
  | none => false
  | some uid => admins.contains uid

/-- Result of a list fetch: the Access Denied alert path or the loaded rows. -/
inductive FetchOutcome
  | accessDenied
  | ok
deriving DecidableEq

/-- Lines 87-99 of fetchRedemptionRequests: the admin guard.  A non-admin gets
the Access Denied alert and the state set to []; an admin gets the query
result (the query itself, ordering and the join transform, is abstracted as
`table`). -/
def fetchRedemptionRequestsGuard (currentUser : Option Nat) (admins : List Nat)
    (table : List RedemptionRequest) : FetchOutcome × List RedemptionRequest :=
  if checkAdminStatus currentUser admins then (FetchOutcome.ok, table)
  else (FetchOutcome.accessDenied, [])

/-- Severity class of the local Notification view, from admin.types. -/
inductive NotifType
  | info
  | success
  | warning
  | error
deriving DecidableEq

/-- Local Notification entry of HomeScreen. -/
structure Notification where
  id : Nat
  title : String
  message : String
  type : NotifType
  created_at : Nat
  read : Bool
deriving DecidableEq

/-- Raw system_notifications row carried by a change-feed payload. -/
structure RawNotificationRecord where
  id : Nat
  title : String
  message : String
  priority : String
  created_at : Nat
deriving DecidableEq

/-- Lines 71-80 of HomeScreen, getNotificationType: switch on the priority. -/
def getNotificationType (priority : String) : NotifType :=
  if priority = "critical" then NotifType.error
  else if priority = "high" then NotifType.warning
  else NotifType.info

/-- Lines 37-46: the INSERT branch maps the record and prepends it, read=false. -/
def applyInsert (notifs : List Notification) (r : RawNotificationRecord) :
    List Notification :=
  { id := r.id, title := r.title, message := r.message,
    type := getNotificationType r.priority, created_at := r.created_at,
    read := false } :: notifs

/-- Lines 47-59: the UPDATE branch maps over the list, replacing
title/message/type of the entry with the matching id and keeping every other
field and every other entry. -/
def applyUpdate (notifs : List Notification) (r : RawNotificationRecord) :
    List Notification :=
  notifs.map fun n =>
    if n.id = r.id then
      { n with title := r.title, message := r.message,
               type := getNotificationType r.priority }
    else n

/-- Lines 60-62: the DELETE branch filters out the id. -/
def applyDelete (notifs : List Notification) (oldId : Nat) : List Notification :=
  notifs.filter fun n => decide (n.id ≠ oldId)

/-- Lines 135-150, markNotificationAsRead: local-only flip of the read flag. -/
def markNotificationAsRead (notifs : List Notification) (nid : Nat) :
    List Notification :=
  notifs.map fun n => if n.id = nid then { n with read := true } else n

/-! Generic list lemmas used by several proofs below. -/

theorem find_map_pred {α : Type} (f : α → α) (p : α → Bool)
    (hf : ∀ x, p (f x) = p x) (l : List α) :
    (l.map f).find? p = (l.find? p).map f := by
  induction l with
  | nil => rfl
  | cons a t ih =>
    simp only [List.map_cons, List.find?]
    rw [hf a]
    cases h : p a <;> simp [h, ih]

theorem filter_map_pred {α : Type} (f : α → α) (p : α → Bool)
    (hf : ∀ x, p (f x) = p x) (l : List α) :
    (l.map f).filter p = (l.filter p).map f := by
  induction l with
  | nil => rfl
  | cons a t ih =>
    simp only [List.map_cons, List.filter_cons, hf a]
    cases h : p a <;> simp [h, ih]

theorem map_eq_self_of_filter_nil {α : Type} (p : α → Bool) (f : α → α) (l : List α)
    (h : l.filter p = []) :
    (l.map fun x => if p x then f x else x) = l := by
  rw [List.filter_eq_nil_iff] at h
  induction l with
  | nil => rfl
  | cons a t ih =>
    have ha : p a = false := by
      have := h a (by simp)
      simpa using this
    simp only [List.map_cons, ha, Bool.false_eq_true, if_false]
    rw [ih fun x hx => h x (by simp [hx])]

/-! Sample rows used to instantiate universally quantified theorems. -/

def sampleRecord : RawNotificationRecord :=
  { id := 1, title := "Maintenance", message := "Tonight", priority := "high",
    created_at := 3 }

def otherNotification : Notification :=
  { id := 5, title := "Old", message := "Entry", type := NotifType.info,
    created_at := 1, read := false }

/-! Facts about the ledger predicate and the upsert used by several claims. -/

theorem matchesRef_newRedeemedEntry (req : RedemptionRequest) (now freshId : Nat) :
    matchesRef req.id (newRedeemedEntry req now freshId) = true := by
  simp [matchesRef, newRedeemedEntry]

theorem matchesRef_amend (refId : Nat) (cash : Nat) (now : Nat) (eid : Nat)
    (t : LedgerEntry) :
    matchesRef refId (if t.id = eid then
        { t with status := TxStatus.completed,
                 description := completedDescription cash, updated_at := now }
      else t) = matchesRef refId t := by
  by_cases ht : t.id = eid <;> simp [ht, matchesRef]

theorem matchesRef_markFailed (refId cash now : Nat) (t : LedgerEntry) :
    matchesRef refId (if matchesRef refId t then
        { t with status := TxStatus.failed,
                 description := rejectedDescription cash, updated_at := now }
      else t) = matchesRef refId t := by
  by_cases ht : matchesRef refId t = true
  · simp only [ht, if_true]
    unfold matchesRef at ht ⊢
    simpa using ht
  · simp only [Bool.not_eq_true] at ht
    simp [ht]

theorem upsert_of_filter_nil (txs : List LedgerEntry) (req : RedemptionRequest)
    (now freshId : Nat) (w : Bool)
    (h : txs.filter (matchesRef req.id) = []) :
    completionLedgerUpsert txs req now freshId w =
      some (if w then txs else txs ++ [newRedeemedEntry req now freshId]) := by
  unfold completionLedgerUpsert
  rw [h]

theorem upsert_of_filter_single (txs : List LedgerEntry) (req : RedemptionRequest)
    (now freshId : Nat) (w : Bool) (e : LedgerEntry)
    (h : txs.filter (matchesRef req.id) = [e]) :
    completionLedgerUpsert txs req now freshId w =
      some (if w then txs else txs.map fun t =>
        if t.id = e.id then
          { t with status := TxStatus.completed,
                   description := completedDescription req.cash_amount,
                   updated_at := now }
        else t) := by
  unfold completionLedgerUpsert
  rw [h]

theorem filter_amend_eq (txs : List LedgerEntry) (refId : Nat) (cash now eid : Nat) :
    (txs.map fun t => if t.id = eid then
        { t with status := TxStatus.completed,
                 description := completedDescription cash, updated_at := now }
      else t).filter (matchesRef refId) =
    (txs.filter (matchesRef refId)).map fun t => if t.id = eid then
        { t with status := TxStatus.completed,
                 description := completedDescription cash, updated_at := now }
      else t :=
  filter_map_pred _ _ (matchesRef_amend refId cash now eid) txs

theorem find_profile_update (l : List UserProfile) (uid : Nat) (na nr : Int)
    (now : Nat) (p : UserProfile)
    (hp : l.find? (fun q => decide (q.user_id = uid)) = some p) :
    (l.map fun q => if q.user_id = uid then
        { q with available_points := na, redeemed_points := nr, updated_at := now }
      else q).find? (fun q => decide (q.user_id = uid)) =
      some { p with available_points := na, redeemed_points := nr,
                    updated_at := now } := by
  induction l with
  | nil => simp at hp
  | cons a t ih =>
    by_cases ha : a.user_id = uid
    · rw [List.find?_cons_of_pos _ (by simp [ha])] at hp
      injection hp with hpa
      subst hpa
      simp only [List.map_cons, if_pos ha]
      exact List.find?_cons_of_pos _ (by simp [ha])
    · rw [List.find?_cons_of_neg _ (by simp [ha])] at hp
      simp only [List.map_cons, if_neg ha]
      rw [List.find?_cons_of_neg _ (by simp [ha])]
      exact ih hp

theorem getProfile_setProfilePoints (db : DB) (uid : Nat) (na nr : Int)
    (now : Nat) (p : UserProfile) (hp : getProfile db uid = some p) :
    getProfile (setProfilePoints db uid na nr now) uid =
      some { p with available_points := na, redeemed_points := nr,
                    updated_at := now } :=
  find_profile_update db.user_profiles uid na nr now p hp

def sampleProfile : UserProfile :=
  { user_id := 1, available_points := 1000, redeemed_points := 0,
    total_points := 1500, created_at := 0, updated_at := 0 }

def poorProfile : UserProfile :=
  { user_id := 1, available_points := 100, redeemed_points := 0,
    total_points := 1500, created_at := 0, updated_at := 0 }

def sampleRequest : RedemptionRequest :=
  { id := 10, user_id := 1, points_redeemed := 500, cash_amount := 250,
    status := ReqStatus.pending, processed_at := none,
    created_at := 0, updated_at := 0 }

def sampleDB : DB :=
  { requests := [sampleRequest], user_profiles := [sampleProfile],
    transactions := [] }

def poorDB : DB :=
  { requests := [sampleRequest], user_profiles := [poorProfile],
    transactions := [] }

def pendingEntry : LedgerEntry :=
  { id := 7, user_id := 1, type := TxType.redeemed, amount := -500,
    description := "GCash redemption", status := TxStatus.pending,
    reference_id := some 10, created_at := 0, updated_at := 0 }

def rejectDB : DB :=
  { requests := [sampleRequest], user_profiles := [sampleProfile],
    transactions := [pendingEntry] }

/-- Reduction of the completed branch when the profile is found, the balance
check passes and the ledger upsert returns: the run commits the request-row
update, the profile decrement and the upsert result, and reports success. -/
theorem handleRequestAction_completed_success (db : DB) (req : RedemptionRequest)
    (now freshId : Nat) (w : Bool) (p : UserProfile) (txs : List LedgerEntry)
    (hp : getProfile db req.user_id = some p)
    (hbal : ¬ p.available_points < req.points_redeemed)
    (hup : completionLedgerUpsert db.transactions req now freshId w = some txs) :
    handleRequestAction db req ReqStatus.completed now freshId w =
      ({ requests := (updateRequestRow db req.id ReqStatus.completed now).requests,
         user_profiles := (setProfilePoints db req.user_id
            (p.available_points - req.points_redeemed)
            (p.redeemed_points + req.points_redeemed) now).user_profiles,
         transactions := txs }, Outcome.success) := by
  have hp1 : getProfile (updateRequestRow db req.id ReqStatus.completed now)
      req.user_id = some p := hp
  have hup1 : completionLedgerUpsert
      (setProfilePoints (updateRequestRow db req.id ReqStatus.completed now)
        req.user_id (p.available_points - req.points_redeemed)
        (p.redeemed_points + req.points_redeemed) now).transactions
      req now freshId w = some txs := hup
  simp only [handleRequestAction, reduceIte]
  rw [hp1]
  simp only []
  rw [if_neg hbal]
  rw [hup1]
  rfl

/-- Reduction of the rejected branch with no injected failure: the run commits
the request-row update and the mark-failed rewrite of the ledger, leaves the
profiles alone, and reports success. -/
theorem handleRequestAction_rejected_def (db : DB) (req : RedemptionRequest)
    (now freshId : Nat) :
    handleRequestAction db req ReqStatus.rejected now freshId false =
      ({ requests := (updateRequestRow db req.id ReqStatus.rejected now).requests,
         user_profiles := db.user_profiles,
         transactions := markRedeemedFailed db.transactions req.id
           req.cash_amount now },
       Outcome.success) := rfl

/-- Claim C1 evaluation at the failing input: with available=100 and
points_requested=500 the completion attempt fails with the
insufficient-balance error and the balance and ledger are untouched, but the
request row has already been set to status=completed with processed_at filled
in, so the request is not left unchanged. -/
theorem C1_insufficient_balance_mutates_request :
    (handleRequestAction poorDB sampleRequest ReqStatus.completed 5 99 false).2 =
      Outcome.insufficientBalance 100 500 ∧
    (handleRequestAction poorDB sampleRequest ReqStatus.completed 5 99 false).1.user_profiles =
      poorDB.user_profiles ∧
    (handleRequestAction poorDB sampleRequest ReqStatus.completed 5 99 false).1.transactions =
      poorDB.transactions ∧
    (handleRequestAction poorDB sampleRequest ReqStatus.completed 5 99 false).1.requests =
      [{ sampleRequest with
          status := ReqStatus.completed, processed_at := some 5,
          updated_at := 5 }] := by
  decide

/-- Claim C3 evaluation at the failing input: the code never checks that the
request is pending.  Completing the same request twice from a balance of 1000
succeeds both times and deducts 500 twice, leaving available=0, instead of the
second call failing with an invalid-state error; the ledger upsert still keeps
a single row for the request. -/
theorem C3_double_completion_double_decrement :
    (handleRequestAction sampleDB sampleRequest ReqStatus.completed 5 99 false).2 =
      Outcome.success ∧
    (handleRequestAction
        (handleRequestAction sampleDB sampleRequest ReqStatus.completed 5 99 false).1
        sampleRequest ReqStatus.completed 6 100 false).2 = Outcome.success ∧
    getProfile (handleRequestAction
        (handleRequestAction sampleDB sampleRequest ReqStatus.completed 5 99 false).1
        sampleRequest ReqStatus.completed 6 100 false).1 1 =
      some { user_id := 1, available_points := 0, redeemed_points := 1000,
             total_points := 1500, created_at := 0, updated_at := 6 } ∧
    (handleRequestAction
        (handleRequestAction sampleDB sampleRequest ReqStatus.completed 5 99 false).1
        sampleRequest ReqStatus.completed 6 100 false).1.transactions.length = 1 := by
  decide

/-- Claim C5 counterexample: with the completion ledger write failing after a
successful balance mutation, the run still ends in the generic success
outcome: the balance is decremented, no ledger row is written, and no distinct
partial-commit error is reported. -/
theorem C5_partial_commit_reported_as_success :
    (handleRequestAction sampleDB sampleRequest ReqStatus.completed 5 99 true).2 =
      Outcome.success ∧
    (handleRequestAction sampleDB sampleRequest ReqStatus.completed 5 99 true).1.transactions =
      [] ∧
    getProfile (handleRequestAction sampleDB sampleRequest ReqStatus.completed 5 99 true).1 1 =
      some { user_id := 1, available_points := 500, redeemed_points := 500,
             total_points := 1500, created_at := 0, updated_at := 5 } := by
  decide

/-- Claim C6 counterexample: checkAdminStatus is false for a session whose
user is not in the admins table, yet the approve transition performs its full
side effects and reports success: handleRequestAction never invokes the admin
check and no not-authorized refusal exists on the mutating path. -/
theorem C6_mutation_without_admin_check :
    checkAdminStatus (some 42) [7] = false ∧
    (handleRequestAction sampleDB sampleRequest ReqStatus.completed 5 99 false).2 =
      Outcome.success ∧
    getProfile (handleRequestAction sampleDB sampleRequest ReqStatus.completed 5 99 false).1 1 =
      some { user_id := 1, available_points := 500, redeemed_points := 500,
             total_points := 1500, created_at := 0, updated_at := 5 } := by
  decide

/-- Claim C6 amended: only the list fetches are guarded: when checkAdminStatus
is false, fetchRedemptionRequestsGuard refuses with the Access Denied outcome
and an empty list, having run no query. -/
theorem C6_fetch_guard (cu : Option Nat) (admins : List Nat)
    (table : List RedemptionRequest)
    (h : checkAdminStatus cu admins = false) :
    fetchRedemptionRequestsGuard cu admins table =
      (FetchOutcome.accessDenied, []) := by
  unfold fetchRedemptionRequestsGuard
  rw [h]
  simp

/-- Claim C6 amended witness: a concrete non-admin session is refused. -/
theorem C6_fetch_guard_witness :
    fetchRedemptionRequestsGuard (some 42) [7] [sampleRequest] =
      (FetchOutcome.accessDenied, []) :=
  C6_fetch_guard (some 42) [7] [sampleRequest] (by decide)

/-- Claim C2: for every completion the transition commits (profile found,
balance sufficient, no injected ledger failure), starting from a ledger that
satisfies the at-most-one invariant with a matching amount: the run succeeds,
the new balance is available minus points and redeemed plus points, the new
available balance is not negative, and exactly one ledger row matches the
request, with type=redeemed, amount=-points_requested and status=completed. -/
theorem C2_completion_balance_ledger (db : DB) (req : RedemptionRequest)
    (now freshId : Nat) (p : UserProfile)
    (hp : getProfile db req.user_id = some p)
    (hbal : ¬ p.available_points < req.points_redeemed)
    (hledger : db.transactions.filter (matchesRef req.id) = [] ∨
      ∃ e, db.transactions.filter (matchesRef req.id) = [e] ∧
        e.amount = -req.points_redeemed) :
    (handleRequestAction db req ReqStatus.completed now freshId false).2 =
      Outcome.success ∧
    getProfile (handleRequestAction db req ReqStatus.completed now freshId false).1
        req.user_id =
      some { p with available_points := p.available_points - req.points_redeemed,
                    redeemed_points := p.redeemed_points + req.points_redeemed,
                    updated_at := now } ∧
    0 ≤ p.available_points - req.points_redeemed ∧
    ∃ e, (handleRequestAction db req ReqStatus.completed now
        freshId false).1.transactions.filter (matchesRef req.id) = [e] ∧
      e.type = TxType.redeemed ∧ e.amount = -req.points_redeemed ∧
      e.status = TxStatus.completed := by
  have hnn : 0 ≤ p.available_points - req.points_redeemed :=
    sub_nonneg.mpr (le_of_not_lt hbal)
  rcases hledger with hn | ⟨e, he, ham⟩
  · have hup : completionLedgerUpsert db.transactions req now freshId false =
        some (db.transactions ++ [newRedeemedEntry req now freshId]) := by
      rw [upsert_of_filter_nil db.transactions req now freshId false hn]
      rfl
    have hrun := handleRequestAction_completed_success db req now freshId false
      p _ hp hbal hup
    rw [hrun]
    refine ⟨rfl, getProfile_setProfilePoints db req.user_id _ _ now p hp, hnn, ?_⟩
    refine ⟨newRedeemedEntry req now freshId, ?_, rfl, rfl, rfl⟩
    show (db.transactions ++ [newRedeemedEntry req now freshId]).filter
        (matchesRef req.id) = [newRedeemedEntry req now freshId]
    rw [List.filter_append, hn]
    simp [List.filter_cons, matchesRef_newRedeemedEntry]
  · have hme : matchesRef req.id e = true := by
      have hmem : e ∈ db.transactions.filter (matchesRef req.id) := by
        rw [he]
        exact List.mem_singleton_self e
      exact (List.mem_filter.mp hmem).2
    have hup : completionLedgerUpsert db.transactions req now freshId false =
        some (db.transactions.map fun t =>
          if t.id = e.id then
            { t with status := TxStatus.completed,
                     description := completedDescription req.cash_amount,
                     updated_at := now }
          else t) := by
      rw [upsert_of_filter_single db.transactions req now freshId false e he]
      rfl
    have hrun := handleRequestAction_completed_success db req now freshId false
      p _ hp hbal hup
    rw [hrun]
    refine ⟨rfl, getProfile_setProfilePoints db req.user_id _ _ now p hp, hnn, ?_⟩
    refine ⟨{ e with
        status := TxStatus.completed,
        description := completedDescription req.cash_amount,
        updated_at := now }, ?_, ?_, ham, rfl⟩
    · show (db.transactions.map fun t =>
          if t.id = e.id then
            { t with status := TxStatus.completed,
                     description := completedDescription req.cash_amount,
                     updated_at := now }
          else t).filter (matchesRef req.id) = _
      rw [filter_amend_eq, he]
      simp
    · exact (of_decide_eq_true hme).2

/-- Claim C2 witness: the success outcome and single matching ledger row,
obtained from the theorem at a concrete request with available=1000,
points_requested=500 and a pre-existing matching pending row of amount -500. -/
theorem C2_completion_balance_ledger_witness :
    (handleRequestAction rejectDB sampleRequest ReqStatus.completed 5 99 false).2 =
      Outcome.success ∧
    0 ≤ sampleProfile.available_points - sampleRequest.points_redeemed ∧
    ((handleRequestAction rejectDB sampleRequest ReqStatus.completed 5 99
        false).1.transactions.filter (matchesRef sampleRequest.id)).length = 1 := by
  obtain ⟨h1, h2, h3, e, he, -, -, -⟩ :=
    C2_completion_balance_ledger rejectDB sampleRequest 5 99 sampleProfile
      (by decide) (by decide) (Or.inr ⟨pendingEntry, by decide, by decide⟩)
  refine ⟨h1, h3, ?_⟩
  rw [he]
  rfl

/-- Claim C4: the ledger write is an idempotent upsert keyed by
(reference_id, type=redeemed): with at most one matching row present, the
write succeeds; when no row matches, exactly the new row is appended; when one
row matches, it is amended in place (same table length); afterwards exactly
one row matches, and replaying the write leaves exactly one matching row and
does not grow the table. -/
theorem C4_ledger_upsert (txs : List LedgerEntry) (req : RedemptionRequest)
    (now freshId : Nat)
    (h : (txs.filter (matchesRef req.id)).length ≤ 1) :
    ∃ txs', completionLedgerUpsert txs req now freshId false = some txs' ∧
      (txs'.filter (matchesRef req.id)).length = 1 ∧
      (txs.filter (matchesRef req.id) = [] →
        txs' = txs ++ [newRedeemedEntry req now freshId]) ∧
      (∀ e, txs.filter (matchesRef req.id) = [e] → txs'.length = txs.length) ∧
      (∀ now2 freshId2, ∃ txs2,
        completionLedgerUpsert txs' req now2 freshId2 false = some txs2 ∧
        (txs2.filter (matchesRef req.id)).length = 1 ∧
        txs2.length = txs'.length) := by
  have hstep : ∀ (l : List LedgerEntry) (e0 : LedgerEntry) (n2 f2 : Nat),
      l.filter (matchesRef req.id) = [e0] →
      ∃ l2, completionLedgerUpsert l req n2 f2 false = some l2 ∧
        (l2.filter (matchesRef req.id)).length = 1 ∧ l2.length = l.length := by
    intro l e0 n2 f2 hl
    refine ⟨l.map fun t => if t.id = e0.id then
        { t with status := TxStatus.completed,
                 description := completedDescription req.cash_amount,
                 updated_at := n2 }
      else t, ?_, ?_, ?_⟩
    · rw [upsert_of_filter_single l req n2 f2 false e0 hl]
      rfl
    · rw [filter_amend_eq, hl]
      simp
    · simp
  have h1 : txs.filter (matchesRef req.id) = [] ∨
      ∃ e, txs.filter (matchesRef req.id) = [e] := by
    cases hc : txs.filter (matchesRef req.id) with
    | nil => exact Or.inl rfl
    | cons a l =>
      rw [hc] at h
      have hl : l = [] := by
        rw [List.length_cons] at h
        exact List.length_eq_zero.mp (Nat.le_zero.mp (Nat.lt_succ_iff.mp
          (Nat.lt_of_lt_of_le (Nat.lt_succ_self _) (Nat.succ_le_succ (Nat.le_of_succ_le_succ h)))))
      subst hl
      exact Or.inr ⟨a, rfl⟩
  rcases h1 with hn | ⟨e, he⟩
  · refine ⟨txs ++ [newRedeemedEntry req now freshId], ?_, ?_, fun _ => rfl, ?_, ?_⟩
    · rw [upsert_of_filter_nil txs req now freshId false hn]
      rfl
    · rw [List.filter_append, hn]
      simp [List.filter_cons, matchesRef_newRedeemedEntry]
    · intro e2 he2
      rw [hn] at he2
      simp at he2
    · intro n2 f2
      refine hstep _ (newRedeemedEntry req now freshId) n2 f2 ?_
      rw [List.filter_append, hn]
      simp [List.filter_cons, matchesRef_newRedeemedEntry]
  · refine ⟨txs.map fun t => if t.id = e.id then
        { t with status := TxStatus.completed,
                 description := completedDescription req.cash_amount,
                 updated_at := now }
      else t, ?_, ?_, ?_, ?_, ?_⟩
    · rw [upsert_of_filter_single txs req now freshId false e he]
      rfl
    · rw [filter_amend_eq, he]
      simp
    · intro hnil
      rw [hnil] at he
      simp at he
    · intro e2 he2
      simp
    · intro n2 f2
      refine hstep _ ({ e with
          status := TxStatus.completed,
          description := completedDescription req.cash_amount,
          updated_at := now }) n2 f2 ?_
      rw [filter_amend_eq, he]
      simp

/-- Claim C4 witness: the upsert applied to a one-row ledger already holding
the matching row succeeds and still holds exactly one matching row. -/
theorem C4_ledger_upsert_witness :
    Option.map (fun l => (l.filter (matchesRef sampleRequest.id)).length)
      (completionLedgerUpsert [pendingEntry] sampleRequest 5 99 false) =
      some 1 := by
  obtain ⟨txs', h1, h2, -, -, -⟩ :=
    C4_ledger_upsert [pendingEntry] sampleRequest 5 99 (by decide)
  rw [h1]
  simpa using h2

/-- Claim C5 amended: when the balance mutation succeeds and the completion
ledger write then fails, the code logs and swallows the failure: the run still
returns the generic success outcome, the ledger is left unchanged, and the
balance decrement stands; no distinct partial-commit error is surfaced. -/
theorem C5_swallowed_ledger_failure (db : DB) (req : RedemptionRequest)
    (now freshId : Nat) (p : UserProfile)
    (hp : getProfile db req.user_id = some p)
    (hbal : ¬ p.available_points < req.points_redeemed)
    (hsingle : db.transactions.filter (matchesRef req.id) = [] ∨
      ∃ e, db.transactions.filter (matchesRef req.id) = [e]) :
    (handleRequestAction db req ReqStatus.completed now freshId true).2 =
      Outcome.success ∧
    (handleRequestAction db req ReqStatus.completed now freshId true).1.transactions =
      db.transactions ∧
    getProfile (handleRequestAction db req ReqStatus.completed now freshId true).1
        req.user_id =
      some { p with available_points := p.available_points - req.points_redeemed,
                    redeemed_points := p.redeemed_points + req.points_redeemed,
                    updated_at := now } := by
  have hup : completionLedgerUpsert db.transactions req now freshId true =
      some db.transactions := by
    rcases hsingle with hn | ⟨e, he⟩
    · rw [upsert_of_filter_nil db.transactions req now freshId true hn]
      rfl
    · rw [upsert_of_filter_single db.transactions req now freshId true e he]
      rfl
  have hrun := handleRequestAction_completed_success db req now freshId true
    p _ hp hbal hup
  rw [hrun]
  exact ⟨rfl, rfl, getProfile_setProfilePoints db req.user_id _ _ now p hp⟩

/-- Claim C5 amended witness: the swallowed-failure fact at the concrete
scenario available=1000, points_requested=500, empty ledger. -/
theorem C5_swallowed_ledger_failure_witness :
    (handleRequestAction sampleDB sampleRequest ReqStatus.completed 5 99 true).2 =
      Outcome.success ∧
    (handleRequestAction sampleDB sampleRequest ReqStatus.completed 5 99
        true).1.transactions = sampleDB.transactions ∧
    getProfile (handleRequestAction sampleDB sampleRequest ReqStatus.completed 5 99
        true).1 sampleRequest.user_id =
      some { sampleProfile with
              available_points :=
                sampleProfile.available_points - sampleRequest.points_redeemed,
              redeemed_points :=
                sampleProfile.redeemed_points + sampleRequest.points_redeemed,
              updated_at := 5 } :=
  C5_swallowed_ledger_failure sampleDB sampleRequest 5 99 sampleProfile
    (by decide) (by decide) (Or.inl rfl)

/-- Claim C7: for every rejection transition (no injected failure) the run
reports success, the user profiles are untouched, the ledger neither grows nor
shrinks, every row matching (reference=request.id, type=redeemed) afterwards
has status=failed, and when no matching row exists the ledger is completely
unchanged: a no-op, not an error. -/
theorem C7_rejection_frame (db : DB) (req : RedemptionRequest) (now freshId : Nat) :
    (handleRequestAction db req ReqStatus.rejected now freshId false).2 =
      Outcome.success ∧
    (handleRequestAction db req ReqStatus.rejected now freshId false).1.user_profiles =
      db.user_profiles ∧
    (handleRequestAction db req ReqStatus.rejected now
        freshId false).1.transactions.length = db.transactions.length ∧
    ((handleRequestAction db req ReqStatus.rejected now
        freshId false).1.transactions.filter (matchesRef req.id)).all
      (fun t => decide (t.status = TxStatus.failed)) = true ∧
    (db.transactions.filter (matchesRef req.id) = [] →
      (handleRequestAction db req ReqStatus.rejected now
        freshId false).1.transactions = db.transactions) := by
  rw [handleRequestAction_rejected_def]
  refine ⟨rfl, rfl, ?_, ?_, ?_⟩
  · simp [markRedeemedFailed]
  · rw [List.all_eq_true]
    intro t ht
    rw [List.mem_filter] at ht
    obtain ⟨htm, htp⟩ := ht
    unfold markRedeemedFailed at htm
    rw [List.mem_map] at htm
    obtain ⟨a, ha, rfl⟩ := htm
    rw [matchesRef_markFailed] at htp
    rw [if_pos htp]
    simp
  · intro hnil
    show markRedeemedFailed db.transactions req.id req.cash_amount now =
      db.transactions
    unfold markRedeemedFailed
    exact map_eq_self_of_filter_nil (matchesRef req.id) _ db.transactions hnil

/-- Claim C7 witness: rejecting the concrete request whose ledger holds one
matching pending row marks it failed, keeps the table length and leaves the
profiles untouched. -/
theorem C7_rejection_frame_witness :
    (handleRequestAction rejectDB sampleRequest ReqStatus.rejected 5 99 false).2 =
      Outcome.success ∧
    (handleRequestAction rejectDB sampleRequest ReqStatus.rejected 5 99
        false).1.user_profiles = rejectDB.user_profiles ∧
    (handleRequestAction rejectDB sampleRequest ReqStatus.rejected 5 99
        false).1.transactions.length = rejectDB.transactions.length ∧
    ((handleRequestAction rejectDB sampleRequest ReqStatus.rejected 5 99
        false).1.transactions.filter (matchesRef sampleRequest.id)).all
      (fun t => decide (t.status = TxStatus.failed)) = true := by
  obtain ⟨h1, h2, h3, h4, -⟩ := C7_rejection_frame rejectDB sampleRequest 5 99
  exact ⟨h1, h2, h3, h4⟩

/-- Claim C8: applying inserted(A), updated(A), deleted(A) in order to any
initial sequence leaves no entry with A's id; applying inserted(A), markRead(A),
updated(A) leaves A present at its insertion position (the head) with read=true,
the update replacing title/message/severity while preserving the read flag, and
the sequence length is the initial length plus one. -/
theorem C8_notification_merge (notifs : List Notification) (r : RawNotificationRecord) :
    ((applyDelete (applyUpdate (applyInsert notifs r) r) r.id).all
        fun n => decide (n.id ≠ r.id)) = true ∧
    (applyUpdate (markNotificationAsRead (applyInsert notifs r) r.id) r).head? =
      some { id := r.id, title := r.title, message := r.message,
             type := getNotificationType r.priority, created_at := r.created_at,
             read := true } ∧
    (applyUpdate (markNotificationAsRead (applyInsert notifs r) r.id) r).length =
      notifs.length + 1 := by
  refine ⟨?_, ?_, ?_⟩
  · rw [List.all_eq_true]
    intro n hn
    rw [applyDelete] at hn
    simp only [List.mem_filter] at hn
    exact hn.2
  · simp [applyUpdate, markNotificationAsRead, applyInsert]
  · simp [applyUpdate, markNotificationAsRead, applyInsert]

/-- Claim C8 witness: the merge fact instantiated on a concrete one-element
initial sequence and a concrete record. -/
theorem C8_notification_merge_witness :
    ((applyDelete (applyUpdate (applyInsert [otherNotification] sampleRecord)
        sampleRecord) sampleRecord.id).all
      fun n => decide (n.id ≠ sampleRecord.id)) = true ∧
    (applyUpdate (markNotificationAsRead (applyInsert [otherNotification] sampleRecord)
        sampleRecord.id) sampleRecord).head? =
      some { id := sampleRecord.id, title := sampleRecord.title,
             message := sampleRecord.message,
             type := getNotificationType sampleRecord.priority,
             created_at := sampleRecord.created_at, read := true } ∧
    (applyUpdate (markNotificationAsRead (applyInsert [otherNotification] sampleRecord)
        sampleRecord.id) sampleRecord).length = [otherNotification].length + 1 :=
  C8_notification_merge [otherNotification] sampleRecord

/-- Claim C9 counterexample: an updated event whose id is absent from the local
sequence is not treated as an insert: updating the empty sequence leaves it
empty, so the record is not present afterwards. -/
theorem C9_update_absent_cex : applyUpdate [] sampleRecord = [] := rfl

/-- Claim C9 amended: for every updated(record) event whose id is absent from
the local sequence, the merger leaves the sequence unchanged; the record is not
inserted. -/
theorem C9_update_absent_noop (notifs : List Notification) (r : RawNotificationRecord)
    (h : ∀ n ∈ notifs, n.id ≠ r.id) : applyUpdate notifs r = notifs := by
  unfold applyUpdate
  induction notifs with
  | nil => rfl
  | cons a t ih =>
    simp only [List.map_cons]
    rw [if_neg (h a (List.mem_cons_self a t))]
    rw [ih fun x hx => h x (List.mem_cons_of_mem a hx)]

/-- Claim C9 amended witness: a one-element sequence with a different id is
unchanged by the update event. -/
theorem C9_update_absent_noop_witness :
    applyUpdate [otherNotification] sampleRecord = [otherNotification] :=
  C9_update_absent_noop [otherNotification] sampleRecord (by decide)

/-- Claim C10: the severity mapping is total and three-valued: 'critical' maps
to error, 'high' to warning, every other priority to info; the success class is
never produced by the mapping, and every entry an inserted or updated event adds
or rewrites carries a mapped class, hence never success. -/
theorem C10_severity_mapping :
    getNotificationType "critical" = NotifType.error ∧
    getNotificationType "high" = NotifType.warning ∧
    (∀ p, p ≠ "critical" → p ≠ "high" → getNotificationType p = NotifType.info) ∧
    (∀ p, getNotificationType p ≠ NotifType.success) ∧
    (∀ notifs r n, n ∈ applyInsert notifs r → n ∈ notifs ∨ n.type ≠ NotifType.success) ∧
    (∀ notifs r n, n ∈ applyUpdate notifs r → n ∈ notifs ∨ n.type ≠ NotifType.success) := by
  have hns : ∀ p, getNotificationType p ≠ NotifType.success := by
    intro p
    unfold getNotificationType
    split
    · decide
    · split
      · decide
      · decide
  refine ⟨rfl, rfl, ?_, hns, ?_, ?_⟩
  · intro p h1 h2
    unfold getNotificationType
    rw [if_neg h1, if_neg h2]
  · intro notifs r n hn
    rw [applyInsert, List.mem_cons] at hn
    rcases hn with h | h
    · right
      rw [h]
      exact hns r.priority
    · exact Or.inl h
  · intro notifs r n hn
    rw [applyUpdate, List.mem_map] at hn
    obtain ⟨a, ha, rfl⟩ := hn
    by_cases hid : a.id = r.id
    · right
      simp only [if_pos hid]
      exact hns r.priority
    · left
      simp only [if_neg hid]
      exact ha

/-- Claim C10 witness: the mapping evaluated at the concrete priority 'low'. -/
theorem C10_severity_mapping_witness :
    getNotificationType "low" = NotifType.info ∧
    getNotificationType "low" ≠ NotifType.success :=
  ⟨C10_severity_mapping.2.2.1 "low" (by decide) (by decide),
   C10_severity_mapping.2.2.2.1 "low"⟩

end BotcoinAdmin
